import Mathlib

/-!
Shallow embedding of the core of the aws-iot-device-sdk-cpp-v2 sources under
verification: the shadow-sync sample (the delta handler `onDeltaUpdated`, the
update builder `s_changeShadowValue`, the three-way subscription join, and the
accepted-response handler `onUpdateShadowAccepted`), the jobs status
marshaller (`JobStatusMarshaller::ToString` / `FromString`), and the generated
request/response codec stubs.  Components whose contract is given only by the
specification (the Version Guard, and type/codec declarations whose
implementation files are not in the tree) are modelled from the spec and
marked as such in their doc comments.
-/

namespace Iotshadow

/-- A JSON value stored under a property key of a shadow state document, as
the sample distinguishes them: `JsonView::IsNull` selects `nullV`, otherwise
the sample reads the value with `GetString`. -/
inductive JsonVal where
  | nullV : JsonVal
  | strV : String → JsonVal
deriving DecidableEq

/-- A JSON object mapping string keys to values, as built by
`JsonObject::WithString` / `WithObject`; the first binding for a key wins. -/
abbrev StateDoc := List (String × JsonVal)

/-- Models `JsonView::ValueExists` / `GetJsonObject` on a state document:
lookup of the first binding of a key. -/
def valueLookup : StateDoc → String → Option JsonVal
  | [], _ => none
  | (k, v) :: rest, key => if k = key then some v else valueLookup rest key

/-- The delta event delivered to the sample's `onDeltaUpdated` handler.  The
sample reads only the `State` member; the `Version` member is carried by the
event per the spec's ChangeNotification data model (the event class
declaration is not in the tree) and is included here so that theorems can
speak about it. -/
structure ShadowDeltaUpdatedEvent where
  State : Option StateDoc
  Version : Option Nat
deriving DecidableEq

/-- Source: `static const char *SHADOW_VALUE_DEFAULT = "off";`. -/
def SHADOW_VALUE_DEFAULT : String := "off"

/-- The `state` document built by `s_changeShadowValue`: a `reported` object
and a `desired` object, each mapping property names to string values. -/
structure ShadowStateValue where
  reported : List (String × String)
  desired : List (String × String)
deriving DecidableEq

/-- The outbound `UpdateShadowRequest` as populated by `s_changeShadowValue`:
`ThingName` and the `State` document.  The source also attaches a freshly
generated UUID `ClientToken`; that token is external randomness and carries
no information about the state update, so it is not part of the model. -/
structure UpdateShadowRequest where
  ThingName : String
  State : ShadowStateValue
deriving DecidableEq

/-- Source: `s_changeShadowValue` (shadow-sync sample).  Builds the state
document `{reported: {property: value}, desired: {property: value}}` and the
update request around it, then publishes it. -/
def s_changeShadowValue (thingName shadowProperty value : String) :
    UpdateShadowRequest :=
  { ThingName := thingName,
    State := { reported := [(shadowProperty, value)],
               desired := [(shadowProperty, value)] } }

/-- The bindings the sample's delta handler closes over.  The handler
captures `thingName` and `shadowProperty` by reference and never assigns to
them (nor to any other local); the sample keeps no version counter and no
machine-state variable. -/
structure EngineState where
  thingName : String
  shadowProperty : String
deriving DecidableEq

/-- Observable outcome of one `onDeltaUpdated` invocation: the update
requests it publishes (via `s_changeShadowValue`) and whether it terminates
the process (`exit(-1)` on a nonzero `ioErr`). -/
structure DeltaResult where
  pubs : List UpdateShadowRequest
  fatal : Bool
deriving DecidableEq

/-- The update requests published by one invocation of the sample's
`onDeltaUpdated` lambda (the `if (event) { ... }` block): if the event is
non-null and its `State` contains the watched property, the handler
publishes one update — with the default value `"off"` when the property's
value is JSON null (property deleted), and with the property's string value
otherwise.  Any other event is only logged. -/
def deltaPubs (st : EngineState) (event : Option ShadowDeltaUpdatedEvent) :
    List UpdateShadowRequest :=
  match event with
  | none => []
  | some ev =>
    match ev.State with
    | none => []
    | some stateDoc =>
      match valueLookup stateDoc st.shadowProperty with
      | none => []
      | some JsonVal.nullV =>
          [s_changeShadowValue st.thingName st.shadowProperty
            SHADOW_VALUE_DEFAULT]
      | some (JsonVal.strV v) =>
          [s_changeShadowValue st.thingName st.shadowProperty v]

/-- Source: the `onDeltaUpdated` lambda of the shadow-sync sample.  Handles
the event (publishing per `deltaPubs`); a nonzero `ioErr` then exits the
process (`exit(-1)`).  The handler mutates none of its captured bindings, so
the engine state is returned unchanged. -/
def onDeltaUpdated (st : EngineState) (event : Option ShadowDeltaUpdatedEvent)
    (ioErr : Int) : EngineState × DeltaResult :=
  (st, { pubs := deltaPubs st event,
         fatal := if ioErr = 0 then false else true })

/-- The condition under which `onDeltaUpdated` acts: the event is non-null,
has a `State` document, and that document contains the watched property
(models `event && event->State && event->State->View().ValueExists(prop)`). -/
def deltaMentions (event : Option ShadowDeltaUpdatedEvent) (prop : String) :
    Bool :=
  match event with
  | none => false
  | some ev =>
    match ev.State with
    | none => false
    | some stateDoc => (valueLookup stateDoc prop).isSome

/-- A sequence of deliveries to `onDeltaUpdated`, each an event pointer and
an `ioErr` code, processed in per-channel delivery order; a fatal delivery
(`exit(-1)`) stops the run. -/
def runDeltas : EngineState → List (Option ShadowDeltaUpdatedEvent × Int) →
    EngineState × List UpdateShadowRequest
  | st, [] => (st, [])
  | st, e :: rest =>
    if (onDeltaUpdated st e.1 e.2).2.fatal then
      ((onDeltaUpdated st e.1 e.2).1, (onDeltaUpdated st e.1 e.2).2.pubs)
    else
      ((runDeltas (onDeltaUpdated st e.1 e.2).1 rest).1,
        (onDeltaUpdated st e.1 e.2).2.pubs ++
          (runDeltas (onDeltaUpdated st e.1 e.2).1 rest).2)

/-- Lookup of the first binding of a key in a string-valued JSON object. -/
def strLookup : List (String × String) → String → Option String
  | [], _ => none
  | (k, v) :: rest, key => if k = key then some v else strLookup rest key

/-- The `state` member of an `UpdateShadowResponse` as the sample's accepted
handler reads it: only the `Reported` partition is dereferenced
(`response->State->Reported->View().GetString(prop)`). -/
structure ShadowStateDocument where
  Reported : Option (List (String × String))
deriving DecidableEq

/-- The accepted response; the sample's handler reads only `State`. -/
structure UpdateShadowResponse where
  State : Option ShadowStateDocument
deriving DecidableEq

/-- The value the accepted handler prints:
`response->State->Reported->View().GetString(shadowProperty)`, with the
optional dereferences made explicit. -/
def readReportedValue (shadowProperty : String)
    (response : UpdateShadowResponse) : Option String :=
  match response.State with
  | none => none
  | some doc =>
    match doc.Reported with
    | none => none
    | some rep => strLookup rep shadowProperty

/-- Observable behaviour of one invocation of the sample's
`onUpdateShadowAccepted` handler: on success it prints the reported value
(and prompts for the next input); on a delivery error it exits. -/
inductive AcceptedAction where
  | printSuccess : Option String → AcceptedAction
  | exitError : Int → AcceptedAction
deriving DecidableEq

/-- Source: the `onUpdateShadowAccepted` lambda of the shadow-sync sample.
Every delivery runs the handler body unconditionally; there is no
correlation-token registry and no duplicate suppression in the sample. -/
def onUpdateShadowAccepted (shadowProperty : String)
    (response : UpdateShadowResponse) (ioErr : Int) : AcceptedAction :=
  if ioErr = 0 then AcceptedAction.printSuccess
      (readReportedValue shadowProperty response)
  else AcceptedAction.exitError ioErr

/-- A sequence of deliveries on the update/accepted channel; the transport
invokes the handler once per inbound message. -/
def processAcceptedDeliveries (shadowProperty : String)
    (deliveries : List (UpdateShadowResponse × Int)) : List AcceptedAction :=
  deliveries.map (fun d => onUpdateShadowAccepted shadowProperty d.1 d.2)

/-- The three completion flags the sample's subscription callbacks set,
plus whether the process has exited via `exit(-1)`.  Field names follow the
source (including its `Acceped` spelling). -/
structure SubFlags where
  subscribeDeltaCompleted : Bool
  subscribeDeltaAccepedCompleted : Bool
  subscribeDeltaRejectedCompleted : Bool
  exited : Bool
deriving DecidableEq

/-- Initial flags, as constructed in `main`: all false. -/
def initSubFlags : SubFlags :=
  { subscribeDeltaCompleted := false,
    subscribeDeltaAccepedCompleted := false,
    subscribeDeltaRejectedCompleted := false,
    exited := false }

/-- A subscription acknowledgement callback invocation, carrying the
transport's `ioErr` code, for one of the three channels. -/
inductive SubAckEvent where
  | deltaAck : Int → SubAckEvent
  | acceptedAck : Int → SubAckEvent
  | rejectedAck : Int → SubAckEvent
deriving DecidableEq

/-- The `ioErr` code carried by an acknowledgement event. -/
def ackErr : SubAckEvent → Int
  | SubAckEvent.deltaAck e => e
  | SubAckEvent.acceptedAck e => e
  | SubAckEvent.rejectedAck e => e

/-- Source: the `onDeltaUpdatedSubAck`, `onDeltaUpdatedAcceptedSubAck` and
`onDeltaUpdatedRejectedSubAck` lambdas.  The delta and accepted callbacks
exit the process on a nonzero `ioErr` and otherwise set their flag; the
rejected callback logs an error but sets its flag regardless.  A dead
process handles no further callback. -/
def stepSubAck (s : SubFlags) (e : SubAckEvent) : SubFlags :=
  if s.exited then s
  else
    match e with
    | SubAckEvent.deltaAck io =>
      if io = 0 then { s with subscribeDeltaCompleted := true }
      else { s with exited := true }
    | SubAckEvent.acceptedAck io =>
      if io = 0 then { s with subscribeDeltaAccepedCompleted := true }
      else { s with exited := true }
    | SubAckEvent.rejectedAck _ =>
      { s with subscribeDeltaRejectedCompleted := true }

/-- Fold a sequence of acknowledgement callbacks over the flags. -/
def runSubAcks (s : SubFlags) (evs : List SubAckEvent) : SubFlags :=
  List.foldl stepSubAck s evs

/-- Source: the wait predicate at the join in `main` —
`subscribeDeltaCompleted && subscribeDeltaAccepedCompleted &&
subscribeDeltaRejectedCompleted` — guarding entry to the input loop; a
process that has exited never reaches it. -/
def canProceed (s : SubFlags) : Bool :=
  s.subscribeDeltaCompleted && s.subscribeDeltaAccepedCompleted &&
    s.subscribeDeltaRejectedCompleted && !s.exited

/-- Outcome of the Version Guard's `accept` operation. -/
inductive GuardOutcome where
  | Advance : GuardOutcome
  | StaleIgnore : GuardOutcome
deriving DecidableEq

/-- Modelled from the spec: the Version Guard operation
`accept(candidateVersion, currentVersion) -> {Advance | StaleIgnore}` —
`Advance` iff the candidate exceeds the current version or the current
version is unset; ties and lower values yield `StaleIgnore`.  No
implementation of the Version Guard exists under the sources in the tree. -/
def accept (candidateVersion : Nat) (currentVersion : Option Nat) :
    GuardOutcome :=
  match currentVersion with
  | none => GuardOutcome.Advance
  | some cur =>
    if cur < candidateVersion then GuardOutcome.Advance
    else GuardOutcome.StaleIgnore

end Iotshadow

namespace IotSdkJobs

/-- Source: the `JobStatus` enum of `aws/iotsdk/jobs/JobStatus.h`, with the
seven values handled by the marshaller, in declaration order. -/
inductive JobStatus where
  | QUEUED : JobStatus
  | IN_PROGRESS : JobStatus
  | FAILED : JobStatus
  | SUCCESS : JobStatus
  | CANCELED : JobStatus
  | REJECTED : JobStatus
  | REMOVED : JobStatus
deriving DecidableEq

/-- The underlying integral value of each enumerator (an unscoped-default
C++ enum numbers its enumerators 0, 1, ... in declaration order). -/
def jobStatusCode : JobStatus → Int
  | JobStatus.QUEUED => 0
  | JobStatus.IN_PROGRESS => 1
  | JobStatus.FAILED => 2
  | JobStatus.SUCCESS => 3
  | JobStatus.CANCELED => 4
  | JobStatus.REJECTED => 5
  | JobStatus.REMOVED => 6

namespace JobStatusMarshaller

/-- Source: `JobStatusMarshaller::ToString` (JobStatus.cpp), the switch over
the seven enumerators.  The `default: assert(0)` branch is unreachable for a
value of the closed enum. -/
def ToString : JobStatus → String
  | JobStatus.QUEUED => "QUEUED"
  | JobStatus.IN_PROGRESS => "IN_PROGRESS"
  | JobStatus.FAILED => "FAILED"
  | JobStatus.SUCCESS => "SUCCESS"
  | JobStatus.CANCELED => "CANCELED"
  | JobStatus.REJECTED => "REJECTED"
  | JobStatus.REMOVED => "REMOVED"

/-- Result of `JobStatusMarshaller::FromString`: whether the `assert(0)`
branch was reached, and the underlying integral value of the returned
`JobStatus` (the failure branch returns `static_cast<JobStatus>(-1)`, an
integral value no enumerator has). -/
structure FromStringResult where
  assertionFailed : Bool
  value : Int
deriving DecidableEq

/-- The seven status names the marshaller recognizes. -/
def recognizedStatusNames : List String :=
  ["QUEUED", "IN_PROGRESS", "FAILED", "SUCCESS", "CANCELED", "REJECTED",
   "REMOVED"]

/-- Source: `JobStatusMarshaller::FromString` (JobStatus.cpp).  The source
compares `HashString` of the input against the precomputed hashes of the
seven names; the hash comparison implements string dispatch and is modelled
as string equality.  An unrecognized string reaches `assert(0)` and returns
`static_cast<JobStatus>(-1)`. -/
def FromString (str : String) : FromStringResult :=
  if str = "QUEUED" then { assertionFailed := false, value := 0 }
  else if str = "IN_PROGRESS" then { assertionFailed := false, value := 1 }
  else if str = "FAILED" then { assertionFailed := false, value := 2 }
  else if str = "SUCCESS" then { assertionFailed := false, value := 3 }
  else if str = "CANCELED" then { assertionFailed := false, value := 4 }
  else if str = "REJECTED" then { assertionFailed := false, value := 5 }
  else if str = "REMOVED" then { assertionFailed := false, value := 6 }
  else { assertionFailed := true, value := -1 }

end JobStatusMarshaller

end IotSdkJobs

/-- A primitive value in a generic structured document at the codec
boundary: strings, and integers (versions and seconds-since-epoch
timestamps, per the spec's document-format section). -/
inductive JsonPrim where
  | jstr : String → JsonPrim
  | jint : Int → JsonPrim
deriving DecidableEq

/-- A generic structured document: string keys mapped to primitive values.
An absent optional field is simply not present in the list. -/
abbrev JsonDocument := List (String × JsonPrim)

/-- Lookup of the first binding of a key in a document. -/
def docLookup : JsonDocument → String → Option JsonPrim
  | [], _ => none
  | (k, v) :: rest, key => if k = key then some v else docLookup rest key

namespace Iotjobs

/-- Modelled from the spec: the field list of
`UpdateJobExecutionSubscriptionRequest` (its header is not in the tree; the
generated subscription requests carry the topic parameters `ThingName` and
`JobId` as optional members, and the samples populate `ThingName`). -/
structure UpdateJobExecutionSubscriptionRequest where
  ThingName : Option String
  JobId : Option String
deriving DecidableEq

/-- Source: `UpdateJobExecutionSubscriptionRequest::SerializeToObject`
(UpdateJobExecutionSubscriptionRequest.cpp) — the body is empty, so nothing
is written to the document. -/
def UpdateJobExecutionSubscriptionRequest.SerializeToObject
    (_ : UpdateJobExecutionSubscriptionRequest) : JsonDocument := []

/-- Source: `UpdateJobExecutionSubscriptionRequest::LoadFromObject`
(UpdateJobExecutionSubscriptionRequest.cpp) — the body is empty, so the
default-constructed value (all optionals absent) is returned for any
document. -/
def UpdateJobExecutionSubscriptionRequest.LoadFromObject
    (_ : JsonDocument) : UpdateJobExecutionSubscriptionRequest :=
  { ThingName := none, JobId := none }

end Iotjobs

namespace Iotshadow

/-- Source: the member list of `DeleteShadowResponse`
(DeleteShadowResponse.h): optional `Version`, `ClientToken` and `Timestamp`
(`DateTime` modelled as seconds-since-epoch per the spec's document-format
section). -/
structure DeleteShadowResponse where
  Version : Option Int
  ClientToken : Option String
  Timestamp : Option Int
deriving DecidableEq

/-- Modelled from the spec: the codec of `DeleteShadowResponse` (its
implementation file is not in the tree; only the header is).  Per the spec's
Envelope Codec contract, absent optional fields are not emitted. -/
def DeleteShadowResponse.SerializeToObject (v : DeleteShadowResponse) :
    JsonDocument :=
  (match v.Version with
   | some n => [("version", JsonPrim.jint n)]
   | none => []) ++
  (match v.ClientToken with
   | some s => [("clientToken", JsonPrim.jstr s)]
   | none => []) ++
  (match v.Timestamp with
   | some t => [("timestamp", JsonPrim.jint t)]
   | none => [])

/-- Modelled from the spec: decoding of `DeleteShadowResponse` — each
optional field decodes to an explicit absent marker when its key is missing
from the document. -/
def DeleteShadowResponse.LoadFromObject (doc : JsonDocument) :
    DeleteShadowResponse :=
  { Version :=
      match docLookup doc "version" with
      | some (JsonPrim.jint n) => some n
      | _ => none,
    ClientToken :=
      match docLookup doc "clientToken" with
      | some (JsonPrim.jstr s) => some s
      | _ => none,
    Timestamp :=
      match docLookup doc "timestamp" with
      | some (JsonPrim.jint t) => some t
      | _ => none }

end Iotshadow

namespace Iotshadow

/-- C1: for every version pair, the Version Guard's `accept(b, a)` returns
`Advance` iff `b > a` or `a` is unset, and `StaleIgnore` for every tie and
every lower value of `b`, exhaustively over ties, decreases, and the
unset-current case. -/
theorem C1_version_guard_accept (a candidate : Nat) :
    accept candidate none = GuardOutcome.Advance ∧
    (accept candidate (some a) = GuardOutcome.Advance ↔ a < candidate) ∧
    (accept candidate (some a) = GuardOutcome.StaleIgnore ↔ candidate ≤ a) := by
  refine ⟨rfl, ?_, ?_⟩
  · by_cases h : a < candidate
    · simp [accept, h]
    · simp [accept, h]
  · by_cases h : a < candidate
    · simp [accept, h]
    · simp [accept, h]
      omega

/-- C2 counterexample: a delta whose carried version (3) is at or below a
last-seen version (5) is not ignored — the handler still publishes an
update request. -/
theorem C2_stale_delta_counterexample :
    (3 : Nat) ≤ 5 ∧
    (onDeltaUpdated ⟨"MyThing", "power"⟩
      (some ⟨some [("power", JsonVal.strV "on")], some 3⟩) 0).2.pubs ≠ [] := by
  decide

/-- C2 amended: the sample keeps no last-seen version and never inspects the
delta's carried version; its behaviour is identical for any two carried
versions, and it ignores a ChangeNotification (publishes nothing) exactly
when the notification's state does not contain the watched property. -/
theorem C2_amended_version_blind (t p : String) (stateDoc : Option StateDoc)
    (v w : Option Nat) (ioErr : Int) :
    onDeltaUpdated ⟨t, p⟩ (some ⟨stateDoc, v⟩) ioErr =
      onDeltaUpdated ⟨t, p⟩ (some ⟨stateDoc, w⟩) ioErr ∧
    ((onDeltaUpdated ⟨t, p⟩ (some ⟨stateDoc, v⟩) ioErr).2.pubs = [] ↔
      deltaMentions (some ⟨stateDoc, v⟩) p = false) := by
  constructor
  · rfl
  · cases stateDoc with
    | none => simp [onDeltaUpdated, deltaPubs, deltaMentions]
    | some d =>
      cases h : valueLookup d p with
      | none => simp [onDeltaUpdated, deltaPubs, deltaMentions, h]
      | some val =>
        cases val <;> simp [onDeltaUpdated, deltaPubs, deltaMentions, h]

/-- C3 counterexample: two ChangeNotifications for the watched property with
desired values "dim" then "bright" produce two immediate UpdateRequests, the
first carrying "dim" — not exactly one request carrying the latest value. -/
theorem C3_coalescing_counterexample :
    (runDeltas ⟨"MyThing", "power"⟩
      [(some ⟨some [("power", JsonVal.strV "dim")], some 6⟩, 0),
       (some ⟨some [("power", JsonVal.strV "bright")], some 7⟩, 0)]).2 =
      [s_changeShadowValue "MyThing" "power" "dim",
       s_changeShadowValue "MyThing" "power" "bright"] ∧
    ¬ ((runDeltas ⟨"MyThing", "power"⟩
      [(some ⟨some [("power", JsonVal.strV "dim")], some 6⟩, 0),
       (some ⟨some [("power", JsonVal.strV "bright")], some 7⟩, 0)]).2.length
        = 1) := by
  decide

/-- C3 amended: the sample has no Converging state and performs no
coalescing — each ChangeNotification containing the watched property
triggers its own immediate UpdateRequest, so values D1 then D2 yield exactly
two requests, carrying D1 then D2 in delivery order. -/
theorem C3_amended_no_coalescing (t p d1 d2 : String) (v1 v2 : Option Nat) :
    (runDeltas ⟨t, p⟩
      [(some ⟨some [(p, JsonVal.strV d1)], v1⟩, 0),
       (some ⟨some [(p, JsonVal.strV d2)], v2⟩, 0)]).2 =
      [s_changeShadowValue t p d1, s_changeShadowValue t p d2] := by
  simp [runDeltas, onDeltaUpdated, deltaPubs, valueLookup]

/-- C4 counterexample: delivering the same Accepted outcome twice invokes
the sample's accepted handler twice — two invocations, not one. -/
theorem C4_duplicate_accepted_counterexample :
    processAcceptedDeliveries "power"
      [(⟨some ⟨some [("power", "on")]⟩⟩, 0),
       (⟨some ⟨some [("power", "on")]⟩⟩, 0)] =
      [AcceptedAction.printSuccess (some "on"),
       AcceptedAction.printSuccess (some "on")] ∧
    ¬ ((processAcceptedDeliveries "power"
      [(⟨some ⟨some [("power", "on")]⟩⟩, 0),
       (⟨some ⟨some [("power", "on")]⟩⟩, 0)]).length = 1) := by
  decide

/-- C4 amended: the sample has no correlation-token registry and suppresses
no duplicates — every delivery on the accepted channel invokes the handler
exactly once, so n deliveries (duplicates included) yield n invocations. -/
theorem C4_amended_no_dedup (p : String)
    (ds : List (UpdateShadowResponse × Int)) :
    (processAcceptedDeliveries p ds).length = ds.length := by
  simp [processAcceptedDeliveries]

/-- C5: for every desired value acted on, the single UpdateRequest issued
sets both `state.reported` and `state.desired` for the watched property to
that desired value (mirroring desired into reported). -/
theorem C5_update_mirrors_desired (t p v : String) (stateDoc : StateDoc)
    (ver : Option Nat) (ioErr : Int)
    (h : valueLookup stateDoc p = some (JsonVal.strV v)) :
    (onDeltaUpdated ⟨t, p⟩ (some ⟨some stateDoc, ver⟩) ioErr).2.pubs =
      [s_changeShadowValue t p v] ∧
    (s_changeShadowValue t p v).State.reported = [(p, v)] ∧
    (s_changeShadowValue t p v).State.desired = [(p, v)] := by
  refine ⟨?_, rfl, rfl⟩
  simp [onDeltaUpdated, deltaPubs, h]

/-- C5 witness at a concrete delta carrying desired value "on". -/
theorem C5_update_mirrors_desired_witness :
    (onDeltaUpdated ⟨"MyThing", "power"⟩
      (some ⟨some [("power", JsonVal.strV "on")], some 7⟩) 0).2.pubs =
      [s_changeShadowValue "MyThing" "power" "on"] :=
  (C5_update_mirrors_desired "MyThing" "power" "on"
    [("power", JsonVal.strV "on")] (some 7) 0 (by decide)).1

/-- C8: a ChangeNotification whose state does not contain the watched
property is ignored — no UpdateRequest is published and the handler's local
state is unchanged. -/
theorem C8_unwatched_delta_ignored (t p : String)
    (event : Option ShadowDeltaUpdatedEvent) (ioErr : Int)
    (h : deltaMentions event p = false) :
    (onDeltaUpdated ⟨t, p⟩ event ioErr).1 = ⟨t, p⟩ ∧
    (onDeltaUpdated ⟨t, p⟩ event ioErr).2.pubs = [] := by
  refine ⟨rfl, ?_⟩
  cases event with
  | none => simp [onDeltaUpdated, deltaPubs]
  | some ev =>
    cases hs : ev.State with
    | none => simp [onDeltaUpdated, deltaPubs, hs]
    | some d =>
      cases hl : valueLookup d p with
      | none => simp [onDeltaUpdated, deltaPubs, hs, hl]
      | some val => simp [deltaMentions, hs, hl] at h

/-- C8 witness at a concrete delta for an unwatched property. -/
theorem C8_unwatched_delta_ignored_witness :
    (onDeltaUpdated ⟨"MyThing", "power"⟩
      (some ⟨some [("brightness", JsonVal.strV "7")], some 9⟩) 0).2.pubs
      = [] :=
  (C8_unwatched_delta_ignored "MyThing" "power"
    (some ⟨some [("brightness", JsonVal.strV "7")], some 9⟩) 0 (by decide)).2

/-- C10: a delta whose state carries the watched property with a JSON null
value (property deleted) triggers one update that sets both
`state.reported` and `state.desired` for the property to the fixed default
value "off". -/
theorem C10_null_property_resets_default (t p : String) (stateDoc : StateDoc)
    (ver : Option Nat) (ioErr : Int)
    (h : valueLookup stateDoc p = some JsonVal.nullV) :
    (onDeltaUpdated ⟨t, p⟩ (some ⟨some stateDoc, ver⟩) ioErr).2.pubs =
      [s_changeShadowValue t p SHADOW_VALUE_DEFAULT] ∧
    SHADOW_VALUE_DEFAULT = "off" ∧
    (s_changeShadowValue t p SHADOW_VALUE_DEFAULT).State.reported =
      [(p, "off")] ∧
    (s_changeShadowValue t p SHADOW_VALUE_DEFAULT).State.desired =
      [(p, "off")] := by
  refine ⟨?_, rfl, rfl, rfl⟩
  simp [onDeltaUpdated, deltaPubs, h]

/-- C10 witness at a concrete delta reporting deletion of the property. -/
theorem C10_null_property_resets_default_witness :
    (onDeltaUpdated ⟨"MyThing", "power"⟩
      (some ⟨some [("power", JsonVal.nullV)], some 4⟩) 0).2.pubs =
      [s_changeShadowValue "MyThing" "power" SHADOW_VALUE_DEFAULT] :=
  (C10_null_property_resets_default "MyThing" "power"
    [("power", JsonVal.nullV)] (some 4) 0 (by decide)).1

end Iotshadow

namespace Iotshadow

/-- On an error-free run the three completion flags end up true exactly when
the corresponding acknowledgement was delivered, independent of order, and
the process never exits. -/
theorem runSubAcks_clean_flags (evs : List SubAckEvent) : ∀ s : SubFlags,
    (∀ e ∈ evs, ackErr e = 0) → s.exited = false →
    ((runSubAcks s evs).subscribeDeltaCompleted = true ↔
      (s.subscribeDeltaCompleted = true ∨ SubAckEvent.deltaAck 0 ∈ evs)) ∧
    ((runSubAcks s evs).subscribeDeltaAccepedCompleted = true ↔
      (s.subscribeDeltaAccepedCompleted = true ∨
        SubAckEvent.acceptedAck 0 ∈ evs)) ∧
    ((runSubAcks s evs).subscribeDeltaRejectedCompleted = true ↔
      (s.subscribeDeltaRejectedCompleted = true ∨
        SubAckEvent.rejectedAck 0 ∈ evs)) ∧
    (runSubAcks s evs).exited = false := by
  induction evs with
  | nil =>
    intro s hclean hex
    simp [runSubAcks, hex]
  | cons e rest ih =>
    intro s hclean hex
    have he : ackErr e = 0 := hclean e (List.mem_cons_self e rest)
    have hrest : ∀ x ∈ rest, ackErr x = 0 := by
      intro x hx
      exact hclean x (List.mem_cons_of_mem e hx)
    cases e with
    | deltaAck io =>
      have hio : io = 0 := he
      subst hio
      have hstep : runSubAcks s (SubAckEvent.deltaAck 0 :: rest) =
          runSubAcks { s with subscribeDeltaCompleted := true } rest := by
        simp [runSubAcks, stepSubAck, hex]
      rw [hstep]
      rcases ih { s with subscribeDeltaCompleted := true } hrest hex with
        ⟨i1, i2, i3, i4⟩
      refine ⟨?_, ?_, ?_, i4⟩
      · simp only [i1]
        simp [List.mem_cons]
      · simp only [i2]
        simp [List.mem_cons]
      · simp only [i3]
        simp [List.mem_cons]
    | acceptedAck io =>
      have hio : io = 0 := he
      subst hio
      have hstep : runSubAcks s (SubAckEvent.acceptedAck 0 :: rest) =
          runSubAcks { s with subscribeDeltaAccepedCompleted := true }
            rest := by
        simp [runSubAcks, stepSubAck, hex]
      rw [hstep]
      rcases ih { s with subscribeDeltaAccepedCompleted := true } hrest hex
        with ⟨i1, i2, i3, i4⟩
      refine ⟨?_, ?_, ?_, i4⟩
      · simp only [i1]
        simp [List.mem_cons]
      · simp only [i2]
        simp [List.mem_cons]
      · simp only [i3]
        simp [List.mem_cons]
    | rejectedAck io =>
      have hio : io = 0 := he
      subst hio
      have hstep : runSubAcks s (SubAckEvent.rejectedAck 0 :: rest) =
          runSubAcks { s with subscribeDeltaRejectedCompleted := true }
            rest := by
        simp [runSubAcks, stepSubAck, hex]
      rw [hstep]
      rcases ih { s with subscribeDeltaRejectedCompleted := true } hrest hex
        with ⟨i1, i2, i3, i4⟩
      refine ⟨?_, ?_, ?_, i4⟩
      · simp only [i1]
        simp [List.mem_cons]
      · simp only [i2]
        simp [List.mem_cons]
      · simp only [i3]
        simp [List.mem_cons]

/-- C6: starting from the initial flags, the sample's join predicate holds
after an error-free run of acknowledgement callbacks iff all three
subscription acknowledgements — delta, accepted, and rejected — were
delivered, in any order; it never holds on a strict subset of the three. -/
theorem C6_subscription_join (evs : List SubAckEvent)
    (hclean : ∀ e ∈ evs, ackErr e = 0) :
    canProceed (runSubAcks initSubFlags evs) = true ↔
      (SubAckEvent.deltaAck 0 ∈ evs ∧ SubAckEvent.acceptedAck 0 ∈ evs ∧
        SubAckEvent.rejectedAck 0 ∈ evs) := by
  rcases runSubAcks_clean_flags evs initSubFlags hclean rfl with
    ⟨i1, i2, i3, i4⟩
  simp only [initSubFlags] at i1 i2 i3 i4 ⊢
  simp only [Bool.false_eq_true, false_or] at i1 i2 i3
  simp only [canProceed, i4, Bool.not_false, Bool.and_true,
    Bool.and_eq_true, i1, i2, i3, and_assoc]

/-- C6 witness: a run delivering the three acknowledgements in an order
different from the subscription order reaches the join. -/
theorem C6_subscription_join_witness :
    canProceed (runSubAcks initSubFlags
      [SubAckEvent.rejectedAck 0, SubAckEvent.acceptedAck 0,
        SubAckEvent.deltaAck 0]) = true :=
  (C6_subscription_join
    [SubAckEvent.rejectedAck 0, SubAckEvent.acceptedAck 0,
      SubAckEvent.deltaAck 0] (by decide)).mpr (by decide)

end Iotshadow

namespace Iotjobs

/-- C7 counterexample: for a subscription request with its optional fields
populated, decoding the encoding does not return the value — the generated
codec bodies are empty, so everything is dropped on encode and nothing is
populated on decode. -/
theorem C7_roundtrip_counterexample :
    UpdateJobExecutionSubscriptionRequest.LoadFromObject
        (UpdateJobExecutionSubscriptionRequest.SerializeToObject
          { ThingName := some "MyThing", JobId := some "job42" }) ≠
      { ThingName := some "MyThing", JobId := some "job42" } := by
  decide

/-- C7 amended: the round-trip property holds only for types whose codec
serializes their fields.  Subscription-request types (whose members are
topic parameters) encode to the empty document and decode to the
all-absent value, so their round trip holds only at that value; for a
payload-carrying response such as `DeleteShadowResponse` (codec modelled
from the spec), decode after encode is the identity for every subset of
populated optional fields, with absent fields not emitted and decoded to
the absent marker. -/
theorem C7_amended_roundtrip
    (r : UpdateJobExecutionSubscriptionRequest)
    (d : Iotshadow.DeleteShadowResponse) :
    UpdateJobExecutionSubscriptionRequest.LoadFromObject
        (UpdateJobExecutionSubscriptionRequest.SerializeToObject r) =
      { ThingName := none, JobId := none } ∧
    Iotshadow.DeleteShadowResponse.LoadFromObject
        (Iotshadow.DeleteShadowResponse.SerializeToObject d) = d := by
  refine ⟨rfl, ?_⟩
  rcases d with ⟨v, c, t⟩
  cases v <;> cases c <;> cases t <;>
    simp [Iotshadow.DeleteShadowResponse.SerializeToObject,
      Iotshadow.DeleteShadowResponse.LoadFromObject, docLookup]

end Iotjobs

namespace IotSdkJobs

/-- C9 counterexample: on an unrecognized status string the marshaller does
not return an explicit decode error — it reaches `assert(0)` and returns
the invalid sentinel `static_cast<JobStatus>(-1)`. -/
theorem C9_fromstring_counterexample :
    (JobStatusMarshaller.FromString "NOT_A_STATUS").assertionFailed = true ∧
    (JobStatusMarshaller.FromString "NOT_A_STATUS").value = -1 := by
  decide

/-- C9 amended: for each of the seven recognized names `FromString` returns
the corresponding enumerator without asserting, so FromString after
ToString is the identity on the enum; for every other string it asserts and
returns the invalid sentinel value -1 instead of an explicit decode
error. -/
theorem C9_amended_fromstring (s : JobStatus) (str : String)
    (h : str ∉ JobStatusMarshaller.recognizedStatusNames) :
    JobStatusMarshaller.FromString (JobStatusMarshaller.ToString s) =
      { assertionFailed := false, value := jobStatusCode s } ∧
    JobStatusMarshaller.FromString str =
      { assertionFailed := true, value := -1 } := by
  constructor
  · cases s <;> decide
  · simp only [JobStatusMarshaller.recognizedStatusNames, List.mem_cons,
      List.not_mem_nil, or_false, not_or] at h
    obtain ⟨h1, h2, h3, h4, h5, h6, h7⟩ := h
    simp [JobStatusMarshaller.FromString, h1, h2, h3, h4, h5, h6, h7]

/-- C9 amended witness at a concrete enumerator and a concrete
unrecognized string. -/
theorem C9_amended_fromstring_witness :
    JobStatusMarshaller.FromString
        (JobStatusMarshaller.ToString JobStatus.REMOVED) =
      { assertionFailed := false, value := jobStatusCode JobStatus.REMOVED } ∧
    JobStatusMarshaller.FromString "BOGUS" =
      { assertionFailed := true, value := -1 } :=
  C9_amended_fromstring JobStatus.REMOVED "BOGUS" (by decide)

end IotSdkJobs
